import Mathlib

/-!
Shallow embedding of the equipment lifecycle core of the iMaster_Service
repository (src/inventory/models.py, src/inventory/serializers.py,
src/inventory/views.py, src/university/models.py).

Rooms and warehouses are identified by natural-number primary keys.
`Option Nat` models a nullable foreign key.  Django request data is
modelled with `Option (Option Nat)` for a nullable field: the outer
`Option` records whether the key was supplied at all (DRF partial
updates only touch supplied keys), the inner one its value.

The serializer update path (`EquipmentSerializer.validate` followed by
`EquipmentSerializer.update`) is translated statement by statement; the
django-fsm `@transition` methods of `Equipment` are inlined into
`executeTransition` exactly as `_execute_fsm_transition` dispatches
them.  The `pre_save`/`post_save` signal pair in
src/inventory/signals.py never fires a record creation on the
serializer path (the serializer always touches or creates the
one-to-one record first, which populates the Django relation cache, so
the `hasattr` test of the signal is true), hence it is not modelled.
-/

namespace IMaster

inductive Status
  | inStock
  | inUse
  | inRepair
  | disposed
deriving DecidableEq, Repr

inductive RepairStatus
  | pending
  | inProgress
  | completed
  | failed
deriving DecidableEq, Repr

inductive DisposalReason
  | disposal
  | failedRepair
deriving DecidableEq, Repr

/-- The Equipment row fields the state machine owns
(src/inventory/models.py, `Equipment`). -/
structure Equipment where
  status : Status
  room : Option Nat
  warehouse : Option Nat
deriving DecidableEq, Repr

/-- The Repair row (src/inventory/models.py, `Repair`): a OneToOneField
to Equipment, so at most one record can ever exist per equipment item.
`endDateSet` models whether `end_date` is non-null. -/
structure RepairRecord where
  status : RepairStatus
  originalRoom : Option Nat
  endDateSet : Bool
deriving DecidableEq, Repr

/-- The Disposal row (src/inventory/models.py, `Disposal`), OneToOne
with Equipment. -/
structure DisposalRecord where
  reason : DisposalReason
  originalRoom : Option Nat
deriving DecidableEq, Repr

/-- A MovementHistory row (src/inventory/models.py, `MovementHistory`). -/
structure Movement where
  fromRoom : Option Nat
  toRoom : Option Nat
deriving DecidableEq, Repr

/-- The persistent state one equipment item can see: its own row, its
(at most one) repair and disposal records, the movement log, and the
main warehouse (`Warehouse.objects.filter(is_main=True).first()`,
`none` when no main warehouse is configured). -/
structure DB where
  equipment : Equipment
  repair : Option RepairRecord
  disposal : Option DisposalRecord
  movements : List Movement
  mainWarehouse : Option Nat
deriving DecidableEq, Repr

/-- Errors surfaced by the serializer and model layer. -/
inductive ApiError
  | roomAndWarehouse
  | sendToWarehouseAndRoom
  | badTransition (fromS toS : Status)
  | noMainWarehouse
  | innsCountMismatch (given expected : Nat)
  | innsDuplicate
  | innsExist
  | disposalExists
deriving DecidableEq, Repr

/-- A serializer write request.  `roomKey`/`warehouseKey` are `none`
when the key is absent from the payload, `some v` when present with
value `v` (possibly null). -/
structure UpdateRequest where
  status : Option Status := none
  roomKey : Option (Option Nat) := none
  warehouseKey : Option (Option Nat) := none
  sendToWarehouse : Bool := false
deriving DecidableEq, Repr

/-- Model of `validated_data.get(key)`: absent and explicit null are both `None`. -/
def getKey (k : Option (Option Nat)) : Option Nat :=
  k.getD none

/-- The transition dispatch table of
`EquipmentSerializer._validate_fsm_transition` (serializers.py
333-350); `can_proceed` is always true for a listed pair because every
`source` of every listed transition method matches the first component of the key. -/
def legalTransition : Status → Status → Bool
  | .inStock, .inUse => true
  | .inUse, .inStock => true
  | .inUse, .inRepair => true
  | .inRepair, .inUse => true
  | .inRepair, .inStock => true
  | .inRepair, .disposed => true
  | .inStock, .disposed => true
  | .inUse, .disposed => true
  | _, _ => false

/-- Model of `EquipmentSerializer.validate` (serializers.py 261-293), restricted
to the fields the state machine owns (the specs-template validation is
orthogonal and omitted). -/
def validateUpdate (db : DB) (req : UpdateRequest) : Option ApiError :=
  let room := getKey req.roomKey
  let wh := getKey req.warehouseKey
  if room.isSome && wh.isSome then some .roomAndWarehouse
  else if req.sendToWarehouse && room.isSome then some .sendToWarehouseAndRoom
  else
    match req.status with
    | some t =>
        if t != db.equipment.status && !legalTransition db.equipment.status t then
          some (.badTransition db.equipment.status t)
        else none
    | none => none

def isOpenRepair : RepairStatus → Bool
  | .pending => true
  | .inProgress => true
  | .completed => false
  | .failed => false

/-- The repair-status in-progress to completed/failed block of `_execute_fsm_transition`; `Repair.save` stamps `end_date`
when an open record moves to a closed status (models.py 323-335). -/
def closeRepairAs (db : DB) (outcome : RepairStatus) : DB :=
  match db.repair with
  | some r =>
      if r.status = RepairStatus.inProgress then
        { db with repair := some { r with status := outcome, endDateSet := true } }
      else db
  | none => db

/-- Model of `Disposal.objects.create` guarded by `instance.disposal_record`
existence (`try/except Disposal.DoesNotExist`); on this path the
equipment status is already `disposed` in memory, so `Disposal.save`
only captures `original_room` (the room, already cleared). -/
def addDisposalIfMissing (db : DB) (reason : DisposalReason) : DB :=
  match db.disposal with
  | some _ => db
  | none => { db with disposal := some { reason := reason, originalRoom := db.equipment.room } }

/-- Model of `EquipmentSerializer._execute_fsm_transition` (serializers.py
406-476) with the `Equipment` FSM methods (models.py 165-213) inlined;
the django-fsm decorator writes the target status on a successful
call.  A pair outside the table does nothing, as in the source (it is
unreachable after `validateUpdate`). -/
def executeTransition (db : DB) (fromS toS : Status) : DB :=
  match fromS, toS with
  | .inStock, .inUse =>
      { db with equipment := { db.equipment with status := .inUse, warehouse := none } }
  | .inUse, .inStock =>
      let e1 := { db.equipment with status := Status.inStock, room := none, warehouse := db.mainWarehouse }
      { db with equipment := e1 }
  | .inUse, .inRepair =>
      let originalRoom := db.equipment.room
      let db1 := { db with equipment := { db.equipment with status := .inRepair, room := none } }
      match db1.repair with
      | some _ => db1
      | none =>
          let freshRecord : RepairRecord :=
            { status := .pending, originalRoom := originalRoom, endDateSet := false }
          { db1 with repair := some freshRecord }
  | .inRepair, .inUse =>
      let db1 := closeRepairAs db .completed
      let db2 := { db1 with equipment := { db1.equipment with status := .inUse } }
      match db2.repair with
      | some r =>
          match r.originalRoom with
          | some rm => { db2 with equipment := { db2.equipment with room := some rm } }
          | none => db2
      | none => db2
  | .inRepair, .inStock =>
      let db1 := closeRepairAs db .completed
      let e1 := { db1.equipment with status := Status.inStock, warehouse := db1.mainWarehouse }
      { db1 with equipment := e1 }
  | .inRepair, .disposed =>
      let db1 := closeRepairAs db .failed
      let e1 := { db1.equipment with status := Status.disposed, room := none, warehouse := none }
      addDisposalIfMissing { db1 with equipment := e1 } .failedRepair
  | .inStock, .disposed =>
      let e1 := { db.equipment with status := Status.disposed, room := none, warehouse := none }
      addDisposalIfMissing { db with equipment := e1 } .disposal
  | .inUse, .disposed =>
      let e1 := { db.equipment with status := Status.disposed, room := none, warehouse := none }
      addDisposalIfMissing { db with equipment := e1 } .disposal
  | _, _ => db

/-- The location block of `EquipmentSerializer.update` (serializers.py
376-392): send_to_warehouse forces the main warehouse into
validated_data (raising when none is configured) and nulls the room
key; a supplied room nulls the warehouse key and vice versa. -/
def resolveLocationKeys (db : DB) (req : UpdateRequest) :
    Except ApiError (Option (Option Nat) × Option (Option Nat)) :=
  if req.sendToWarehouse then
    match db.mainWarehouse with
    | none => .error .noMainWarehouse
    | some m => .ok (some none, some (some m))
  else if (getKey req.roomKey).isSome then .ok (req.roomKey, some none)
  else if (getKey req.warehouseKey).isSome then .ok (some none, req.warehouseKey)
  else .ok (req.roomKey, req.warehouseKey)

/-- Model of `EquipmentSerializer.update` (serializers.py 371-404), run after
`validate`: resolve the room/warehouse keys, run the FSM transition
when the requested status differs from the current one, then write the
remaining validated_data fields onto the instance and save. -/
def updateEquipment (db : DB) (req : UpdateRequest) : Except ApiError DB :=
  match validateUpdate db req with
  | some e => .error e
  | none =>
      match resolveLocationKeys db req with
      | .error e => .error e
      | .ok (roomKey, whKey) =>
          let originalStatus := db.equipment.status
          let newStatus := req.status.getD originalStatus
          let db1 := if newStatus ≠ originalStatus then executeTransition db originalStatus newStatus else db
          let eq1 := db1.equipment
          let eq2 := { eq1 with room := roomKey.getD eq1.room, warehouse := whKey.getD eq1.warehouse }
          .ok { db1 with equipment := eq2 }

/-- Model of `EquipmentSerializer.create` (serializers.py 352-369), run after
`validate` with no instance: room is popped (ignored), the warehouse
is forced to the main warehouse (error when none), every other
supplied field — including a caller-supplied status — is passed to the
model, whose `status` default is `in_stock`. -/
def createEquipment (mainWarehouse : Option Nat) (req : UpdateRequest) : Except ApiError Equipment :=
  let room := getKey req.roomKey
  let wh := getKey req.warehouseKey
  if room.isSome && wh.isSome then .error .roomAndWarehouse
  else if req.sendToWarehouse && room.isSome then .error .sendToWarehouseAndRoom
  else
    match mainWarehouse with
    | none => .error .noMainWarehouse
    | some m => .ok { status := req.status.getD .inStock, room := none, warehouse := some m }

/-- A bulk creation request (`BulkEquipmentSerializer`), `inns := []`
when the list is absent or null. -/
structure BulkRequest where
  count : Nat
  inns : List String := []
deriving DecidableEq, Repr

/-- Model of `BulkEquipmentSerializer.validate` plus `create` (serializers.py
512-577) under the `transaction.atomic` of the view (views.py 304-314): the
inns checks run only for a truthy (non-empty) list; creation needs the
main warehouse and then creates exactly `count` rows.  The whole call
either returns all rows or an error with nothing persisted. -/
def bulkCreate (existingInns : List String) (mainWarehouse : Option Nat) (req : BulkRequest) :
    Except ApiError (List Equipment) :=
  if !req.inns.isEmpty && req.inns.length != req.count then
    .error (.innsCountMismatch req.inns.length req.count)
  else if !req.inns.isEmpty && req.inns.dedup.length != req.inns.length then
    .error .innsDuplicate
  else if !req.inns.isEmpty && req.inns.any (fun i => existingInns.contains i) then
    .error .innsExist
  else
    match mainWarehouse with
    | none => .error .noMainWarehouse
    | some m =>
        .ok ((List.range req.count).map
          (fun _ => { status := Status.inStock, room := none, warehouse := some m }))

/-- A Warehouse row restricted to the fields `Warehouse.save` reads
(src/university/models.py 164-177). -/
structure Warehouse where
  pk : Nat
  isMain : Bool
deriving DecidableEq, Repr

/-- Model of `Warehouse.objects.filter(is_main=True).exclude(pk=self.pk).update(is_main=False)`. -/
def clearOtherMains (ws : List Warehouse) (w : Warehouse) : List Warehouse :=
  ws.map (fun x => if x.pk != w.pk && x.isMain then { x with isMain := false } else x)

/-- Model of the final `save()`: update the row with this pk, or insert it. -/
def upsert (ws : List Warehouse) (w : Warehouse) : List Warehouse :=
  if ws.any (fun x => x.pk == w.pk) then ws.map (fun x => if x.pk == w.pk then w else x)
  else ws ++ [w]

/-- Model of `Warehouse.save` (src/university/models.py 164-172): a main
warehouse first clears the flag on every other warehouse. -/
def warehouseSave (ws : List Warehouse) (w : Warehouse) : List Warehouse :=
  upsert (if w.isMain then clearOtherMains ws w else ws) w

/-- Model of `Disposal.save` on a fresh record (models.py 360-370), the direct
ledger write: capture `original_room` before mutating, then force the
equipment to `disposed` with both locations cleared unless it already
is disposed.  A second record hits the OneToOne unique constraint. -/
def disposalCreate (db : DB) (reason : DisposalReason) : Except ApiError DB :=
  match db.disposal with
  | some _ => .error .disposalExists
  | none =>
      let originalRoom := db.equipment.room
      let eq1 :=
        if db.equipment.status ≠ Status.disposed then
          { db.equipment with status := Status.disposed, room := none, warehouse := none }
        else db.equipment
      .ok { db with equipment := eq1, disposal := some { reason := reason, originalRoom := originalRoom } }

/-- Model of a `RepairViewSet` PATCH of the record status, through `Repair.save`
(models.py 323-335): moving an open record to a closed status stamps
`end_date`. -/
def repairSetStatus (db : DB) (s : RepairStatus) : DB :=
  match db.repair with
  | none => db
  | some r =>
      let closes : Bool := isOpenRepair r.status && !isOpenRepair s
      let r1 : RepairRecord := { r with status := s, endDateSet := r.endDateSet || closes }
      { db with repair := some r1 }

/-- A request that only asks for a status change. -/
def statusOnly (t : Status) : UpdateRequest :=
  { status := some t }

/-- The location-exclusivity property of one equipment row, as the spec states it. -/
def locExclusive (e : Equipment) : Prop :=
  ¬(e.room.isSome = true ∧ e.warehouse.isSome = true) ∧
    (e.status = Status.disposed → e.room = none ∧ e.warehouse = none)

/-- Location-status consistency of a state: exclusivity, and a
repair-resident item holds neither a room nor a warehouse. -/
def locInvariant (db : DB) : Prop :=
  locExclusive db.equipment ∧
    (db.equipment.status = Status.inRepair →
      db.equipment.room = none ∧ db.equipment.warehouse = none)

/-- Number of open repair records attached to the item (0 or 1: the
repair table is OneToOne with equipment). -/
def openRepairCount (db : DB) : Nat :=
  match db.repair with
  | some r => if isOpenRepair r.status then 1 else 0
  | none => 0

/-- The request supplies no location data at all. -/
def noLocationFields (req : UpdateRequest) : Prop :=
  req.roomKey = none ∧ req.warehouseKey = none ∧ req.sendToWarehouse = false

/-! ## Shared lemmas -/

lemma closeRepairAs_movements (db : DB) (o : RepairStatus) :
    (closeRepairAs db o).movements = db.movements := by
  unfold closeRepairAs
  split
  · split <;> rfl
  · rfl

lemma closeRepairAs_equipment (db : DB) (o : RepairStatus) :
    (closeRepairAs db o).equipment = db.equipment := by
  unfold closeRepairAs
  split
  · split <;> rfl
  · rfl

lemma closeRepairAs_disposal (db : DB) (o : RepairStatus) :
    (closeRepairAs db o).disposal = db.disposal := by
  unfold closeRepairAs
  split
  · split <;> rfl
  · rfl

lemma closeRepairAs_mainWarehouse (db : DB) (o : RepairStatus) :
    (closeRepairAs db o).mainWarehouse = db.mainWarehouse := by
  unfold closeRepairAs
  split
  · split <;> rfl
  · rfl

lemma addDisposalIfMissing_movements (db : DB) (reason : DisposalReason) :
    (addDisposalIfMissing db reason).movements = db.movements := by
  unfold addDisposalIfMissing
  split <;> rfl

lemma executeTransition_movements (db : DB) (f t : Status) :
    (executeTransition db f t).movements = db.movements := by
  cases f <;> cases t <;> simp only [executeTransition]
  case inUse.inRepair => split <;> rfl
  case inRepair.inUse =>
    have h1 := closeRepairAs_movements db RepairStatus.completed
    revert h1
    generalize closeRepairAs db RepairStatus.completed = d1
    intro h1
    split
    · split <;> simpa using h1
    · simpa using h1
  case inRepair.inStock =>
    have h1 := closeRepairAs_movements db RepairStatus.completed
    revert h1
    generalize closeRepairAs db RepairStatus.completed = d1
    intro h1
    simpa using h1
  case inRepair.disposed =>
    have h1 := closeRepairAs_movements db RepairStatus.failed
    revert h1
    generalize closeRepairAs db RepairStatus.failed = d1
    intro h1
    rw [addDisposalIfMissing_movements]
    simpa using h1
  case inStock.disposed => rw [addDisposalIfMissing_movements]
  case inUse.disposed => rw [addDisposalIfMissing_movements]

/-! ## C9: at most one main warehouse after a save -/

/-- Claim C9: saving a warehouse with `is_main = true` first clears the
flag on every other warehouse, so afterwards every warehouse still
flagged main has the primary key of the saved warehouse: the saved one is
the only main warehouse. -/
theorem c9_unique_main_after_save (ws : List Warehouse) (w x : Warehouse)
    (hmain : w.isMain = true) (hx : x ∈ warehouseSave ws w) (hxm : x.isMain = true) :
    x.pk = w.pk := by
  have hclear : ∀ y : Warehouse, y ∈ clearOtherMains ws w → y.isMain = true → y.pk = w.pk := by
    intro y hy hym
    rcases List.mem_map.mp hy with ⟨z, _, hzy⟩
    by_cases hc : (z.pk != w.pk && z.isMain) = true
    · rw [if_pos hc] at hzy
      rw [← hzy] at hym
      simp at hym
    · rw [if_neg hc] at hzy
      subst hzy
      have hne : ¬((z.pk != w.pk) = true) := fun hb => hc (by simp [hb, hym])
      simpa using hne
  unfold warehouseSave at hx
  rw [hmain] at hx
  simp only [if_pos] at hx
  unfold upsert at hx
  by_cases hany : ((clearOtherMains ws w).any fun y => y.pk == w.pk) = true
  · rw [if_pos hany] at hx
    rcases List.mem_map.mp hx with ⟨z, hz, hzx⟩
    by_cases hpk : (z.pk == w.pk) = true
    · rw [if_pos hpk] at hzx
      rw [← hzx]
    · rw [if_neg hpk] at hzx
      subst hzx
      exact hclear z hz hxm
  · rw [if_neg hany] at hx
    rcases List.mem_append.mp hx with hmem | hmem
    · exact hclear x hmem hxm
    · simp at hmem
      rw [hmem]

/-- Witness for C9 at a concrete input: saving warehouse 2 as main over
a list where warehouse 1 was main leaves warehouse 2 as the only main. -/
theorem c9_unique_main_after_save_witness :
    (⟨2, true⟩ : Warehouse).pk = (⟨2, true⟩ : Warehouse).pk :=
  c9_unique_main_after_save [⟨1, true⟩, ⟨2, false⟩] ⟨2, true⟩ ⟨2, true⟩ rfl (by decide) rfl

/-! ## C10: direct Disposal creation forces disposed + cleared location -/

/-- Claim C10: creating a Disposal record for a not-yet-disposed
equipment item (the direct ledger write of `Disposal.save`) captures
the current room of the item as `original_room` and then forces the item to
`disposed` with both room and warehouse cleared, whatever status it
was in. -/
theorem c10_direct_disposal_forces_disposed (db : DB) (reason : DisposalReason)
    (hs : db.equipment.status ≠ Status.disposed) (hd : db.disposal = none) :
    disposalCreate db reason =
      Except.ok ⟨⟨Status.disposed, none, none⟩, db.repair, some ⟨reason, db.equipment.room⟩,
        db.movements, db.mainWarehouse⟩ := by
  unfold disposalCreate
  rw [hd]
  simp only [if_pos hs]

/-- Witness for C10: disposing an in-use item in room 5 captures room 5
and clears everything. -/
theorem c10_direct_disposal_forces_disposed_witness :
    disposalCreate ⟨⟨Status.inUse, some 5, none⟩, none, none, [], some 1⟩ DisposalReason.disposal =
      Except.ok ⟨⟨Status.disposed, none, none⟩, none, some ⟨DisposalReason.disposal, some 5⟩, [], some 1⟩ :=
  c10_direct_disposal_forces_disposed ⟨⟨Status.inUse, some 5, none⟩, none, none, [], some 1⟩
    DisposalReason.disposal (by decide) rfl

/-! ## C5: MovementHistory is never written by the update path -/

/-- Counterexample to claim C5 (spec Scenario A): transitioning a fresh
in-stock item to `in_use` with room 5 succeeds, but the movement log
stays empty — the source contains no `MovementHistory.objects.create`
call at all, so no `(null -> R5)` row is appended. -/
theorem c5_counterexample_no_movement_row :
    updateEquipment ⟨⟨Status.inStock, none, some 1⟩, none, none, [], some 1⟩
        { status := some Status.inUse, roomKey := some (some 5) } =
      Except.ok ⟨⟨Status.inUse, some 5, none⟩, none, none, [], some 1⟩ ∧
    ([] : List Movement).length ≠ 1 :=
  ⟨rfl, by decide⟩

/-- Amended C5: no completed status- or location-change operation ever
appends a MovementHistory row; the movement log is left exactly as it
was. -/
theorem c5_amended_movements_unchanged (db : DB) (req : UpdateRequest) (db' : DB)
    (h : updateEquipment db req = Except.ok db') :
    db'.movements = db.movements := by
  unfold updateEquipment at h
  cases hv : validateUpdate db req <;> rw [hv] at h
  · cases hk : resolveLocationKeys db req <;> rw [hk] at h
    · exact absurd h (by simp)
    · rename_i p
      rcases p with ⟨rk, wk⟩
      simp only [Except.ok.injEq] at h
      rw [← h]
      by_cases hch : req.status.getD db.equipment.status ≠ db.equipment.status
      · simp only [if_pos hch]
        exact executeTransition_movements db db.equipment.status (req.status.getD db.equipment.status)
      · simp only [if_neg hch]
  · exact absurd h (by simp)

/-- Witness for C5 at spec Scenario A. -/
theorem c5_amended_movements_unchanged_witness :
    (⟨⟨Status.inUse, some 5, none⟩, none, none, [], some 1⟩ : DB).movements =
      (⟨⟨Status.inStock, none, some 1⟩, none, none, [], some 1⟩ : DB).movements :=
  c5_amended_movements_unchanged ⟨⟨Status.inStock, none, some 1⟩, none, none, [], some 1⟩
    { status := some Status.inUse, roomKey := some (some 5) }
    ⟨⟨Status.inUse, some 5, none⟩, none, none, [], some 1⟩ rfl

/-! ## C6: creation ignores room/warehouse but honors a supplied status -/

/-- Counterexample to claim C6: a single-create request that supplies
`status = in_use` is not forced to `in_stock`; the `create` method
never strips the writable `status` field, so the item is born
`in_use` (on the main warehouse). -/
theorem c6_counterexample_status_honored :
    createEquipment (some 1) { status := some Status.inUse } =
      Except.ok ⟨Status.inUse, none, some 1⟩ ∧
    Status.inUse ≠ Status.inStock :=
  ⟨rfl, by decide⟩

/-- Amended C6: a creation request lands on the main warehouse with no
room regardless of caller-supplied room/warehouse, and its status is
`in_stock` only by default — a caller-supplied status value is kept. -/
theorem c6_amended_create_lands_on_main (main : Option Nat) (m : Nat) (req : UpdateRequest)
    (hm : main = some m)
    (h1 : ((getKey req.roomKey).isSome && (getKey req.warehouseKey).isSome) = false)
    (h2 : (req.sendToWarehouse && (getKey req.roomKey).isSome) = false) :
    createEquipment main req = Except.ok ⟨req.status.getD Status.inStock, none, some m⟩ := by
  simp [createEquipment, hm, h1, h2]

/-- Witness for C6: a plain creation request with no status lands
in stock on the main warehouse. -/
theorem c6_amended_create_lands_on_main_witness :
    createEquipment (some 1) {} = Except.ok ⟨Status.inStock, none, some 1⟩ :=
  c6_amended_create_lands_on_main (some 1) 1 {} rfl rfl rfl

/-! ## C7: missing main warehouse -/

/-- Counterexample to claim C7: with no main warehouse configured, the
transition `in_use -> in_stock` does not fail — `return_to_stock`
assigns `Warehouse.get_main()`, which is `None`, so the operation
completes and simply leaves the equipment with no warehouse. -/
theorem c7_counterexample_return_to_stock_without_main :
    updateEquipment ⟨⟨Status.inUse, some 5, none⟩, none, none, [], none⟩
        (statusOnly Status.inStock) =
      Except.ok ⟨⟨Status.inStock, none, none⟩, none, none, [], none⟩ :=
  rfl

/-- Amended C7: when no main warehouse exists, creation and bulk
creation fail with the no-main-warehouse error (given the request
passes the earlier validation checks), but the stock-returning
transitions `in_use -> in_stock` and `in_repair -> in_stock` complete
silently with `warehouse` left unset — the latter for any repair
record state, still closing an in-progress record as usual. -/
theorem c7_amended_no_main_warehouse :
    (∀ req : UpdateRequest,
        ((getKey req.roomKey).isSome && (getKey req.warehouseKey).isSome) = false →
        (req.sendToWarehouse && (getKey req.roomKey).isSome) = false →
        createEquipment none req = Except.error ApiError.noMainWarehouse) ∧
    (∀ (existing : List String) (req : BulkRequest),
        (!req.inns.isEmpty && req.inns.length != req.count) = false →
        (!req.inns.isEmpty && req.inns.dedup.length != req.inns.length) = false →
        (!req.inns.isEmpty && (req.inns.any fun i => existing.contains i)) = false →
        bulkCreate existing none req = Except.error ApiError.noMainWarehouse) ∧
    (∀ db : DB, db.mainWarehouse = none → db.equipment.status = Status.inUse →
        updateEquipment db (statusOnly Status.inStock) =
          Except.ok ⟨⟨Status.inStock, none, none⟩, db.repair, db.disposal, db.movements, none⟩) ∧
    (∀ db : DB, db.mainWarehouse = none → db.equipment.status = Status.inRepair →
        updateEquipment db (statusOnly Status.inStock) =
          Except.ok ⟨⟨Status.inStock, db.equipment.room, none⟩,
            (closeRepairAs db RepairStatus.completed).repair, db.disposal, db.movements, none⟩) := by
  refine ⟨?_, ?_, ?_, ?_⟩
  · intro req h1 h2
    simp [createEquipment, h1, h2]
  · intro existing req h1 h2 h3
    unfold bulkCreate
    rw [h1, h2, h3]
    simp
  · intro db hm hs
    simp [updateEquipment, validateUpdate, resolveLocationKeys, statusOnly, getKey,
      executeTransition, legalTransition, hs, hm]
  · intro db hm hs
    simp [updateEquipment, validateUpdate, resolveLocationKeys, statusOnly, getKey,
      executeTransition, legalTransition, hs, hm, closeRepairAs_equipment,
      closeRepairAs_disposal, closeRepairAs_movements, closeRepairAs_mainWarehouse]

/-- Witness for C7 at concrete inputs: creation and bulk creation fail
without a main warehouse; the two stock-returning transitions complete
with no warehouse assigned. -/
theorem c7_amended_no_main_warehouse_witness :
    createEquipment none {} = Except.error ApiError.noMainWarehouse ∧
    bulkCreate [] none ⟨2, []⟩ = Except.error ApiError.noMainWarehouse ∧
    updateEquipment ⟨⟨Status.inUse, some 6, none⟩, none, none, [], none⟩
        (statusOnly Status.inStock) =
      Except.ok ⟨⟨Status.inStock, none, none⟩, none, none, [], none⟩ ∧
    updateEquipment ⟨⟨Status.inRepair, none, none⟩, some ⟨RepairStatus.inProgress, some 5, false⟩,
        none, [], none⟩ (statusOnly Status.inStock) =
      Except.ok ⟨⟨Status.inStock, none, none⟩, some ⟨RepairStatus.completed, some 5, true⟩,
        none, [], none⟩ :=
  ⟨c7_amended_no_main_warehouse.1 {} rfl rfl,
   c7_amended_no_main_warehouse.2.1 [] ⟨2, []⟩ rfl rfl rfl,
   c7_amended_no_main_warehouse.2.2.1 ⟨⟨Status.inUse, some 6, none⟩, none, none, [], none⟩ rfl rfl,
   c7_amended_no_main_warehouse.2.2.2
     ⟨⟨Status.inRepair, none, none⟩, some ⟨RepairStatus.inProgress, some 5, false⟩, none, [], none⟩
     rfl rfl⟩

/-! ## C8: bulk creation validation and atomicity -/

/-- Counterexample to claim C8: an empty `inns` list is supplied yet
its length (0) differs from `count` (3); the truthiness
guard on the list treats the empty list as absent, so the request is accepted and
three items are created instead of being rejected. -/
theorem c8_counterexample_empty_inns_list :
    bulkCreate [] (some 1) ⟨3, []⟩ =
      Except.ok [⟨Status.inStock, none, some 1⟩, ⟨Status.inStock, none, some 1⟩,
        ⟨Status.inStock, none, some 1⟩] ∧
    ([] : List String).length ≠ 3 :=
  ⟨rfl, by decide⟩

/-- Amended C8: for a non-empty `inns` list, a length mismatch, an
in-batch duplicate, or a collision with an existing inn is rejected
with an error (so nothing is persisted), and any accepted request
creates exactly `count` items. -/
theorem c8_amended_bulk_validation (existing : List String) (main : Option Nat) (req : BulkRequest)
    (hne : req.inns ≠ []) :
    ((req.inns.length ≠ req.count ∨ req.inns.dedup.length ≠ req.inns.length ∨
        (req.inns.any fun i => existing.contains i) = true) →
      ∃ e, bulkCreate existing main req = Except.error e) ∧
    (∀ l, bulkCreate existing main req = Except.ok l → l.length = req.count) := by
  have hne' : req.inns.isEmpty = false := by
    cases h : req.inns
    · exact absurd h hne
    · rfl
  constructor
  · intro hbad
    unfold bulkCreate
    by_cases h1 : (!req.inns.isEmpty && req.inns.length != req.count) = true
    · rw [if_pos h1]
      exact ⟨_, rfl⟩
    · rw [if_neg h1]
      by_cases h2 : (!req.inns.isEmpty && req.inns.dedup.length != req.inns.length) = true
      · rw [if_pos h2]
        exact ⟨_, rfl⟩
      · rw [if_neg h2]
        by_cases h3 : (!req.inns.isEmpty && (req.inns.any fun i => existing.contains i)) = true
        · rw [if_pos h3]
          exact ⟨_, rfl⟩
        · exfalso
          rcases hbad with hb | hb | hb
          · exact h1 (by simp [hne', bne_iff_ne, hb])
          · exact h2 (by simp [hne', bne_iff_ne, hb])
          · exact h3 (by rw [hne', hb]; rfl)
  · intro l hl
    unfold bulkCreate at hl
    split_ifs at hl
    cases main with
    | none => exact absurd hl (by simp)
    | some m =>
        simp only [Except.ok.injEq] at hl
        rw [← hl]
        simp

/-- Witness for C8 at spec Scenario E: `count = 3` with the duplicate
list `["1", "1", "2"]` is rejected. -/
theorem c8_amended_bulk_validation_witness :
    ∃ e, bulkCreate [] (some 1) ⟨3, ["1", "1", "2"]⟩ = Except.error e :=
  (c8_amended_bulk_validation [] (some 1) ⟨3, ["1", "1", "2"]⟩ (by decide)).1
    (Or.inr (Or.inl (by decide)))

/-! ## C2: disposal terminality -/

/-- Claim C2: on a disposed item every status-change request — one
naming a target status that differs from the current `disposed` (the
spec treats a same-status request as a no-op by precondition, not a
transition) — fails with the transition error from `disposed` to the
target, for every choice of target and of accompanying location
fields that pass the generic room/warehouse-conflict validation; the
result is an `Except.error`, so status, room and warehouse are left
unchanged. -/
theorem c2_disposed_terminal_transition_error (db : DB) (req : UpdateRequest) (t : Status)
    (hd : db.equipment.status = Status.disposed)
    (hs : req.status = some t)
    (ht : t ≠ Status.disposed)
    (h1 : ((getKey req.roomKey).isSome && (getKey req.warehouseKey).isSome) = false)
    (h2 : (req.sendToWarehouse && (getKey req.roomKey).isSome) = false) :
    updateEquipment db req = Except.error (ApiError.badTransition Status.disposed t) := by
  have hlegal : legalTransition Status.disposed t = false := by
    cases t <;> simp [legalTransition]
  have hne : (t != Status.disposed) = true := by
    simpa [bne_iff_ne] using ht
  have hv : validateUpdate db req = some (ApiError.badTransition Status.disposed t) := by
    simp only [validateUpdate]
    rw [h1, h2, hs, hd]
    simp [hne, hlegal]
  unfold updateEquipment
  rw [hv]

/-- Witness for C2 at spec Scenario F: requesting `in_use` on a
disposed item fails with the transition error from `disposed` to
`in_use`. -/
theorem c2_disposed_terminal_transition_error_witness :
    updateEquipment
        ⟨⟨Status.disposed, none, none⟩, none, some ⟨DisposalReason.disposal, none⟩, [], some 1⟩
        (statusOnly Status.inUse) =
      Except.error (ApiError.badTransition Status.disposed Status.inUse) :=
  c2_disposed_terminal_transition_error
    ⟨⟨Status.disposed, none, none⟩, none, some ⟨DisposalReason.disposal, none⟩, [], some 1⟩
    (statusOnly Status.inUse) Status.inUse rfl rfl (by decide) rfl rfl

/-! ## C3: one open repair record per repair episode -/

/-- Counterexample to claim C3: after a first repair episode ends
(record completed), sending the item to repair a second time leaves it
`in_repair` with zero open repair records — the one-to-one record from
the first episode still exists, so `_execute_fsm_transition` never
creates a fresh one, and the surviving record is `completed`. -/
theorem c3_counterexample_second_episode :
    updateEquipment ⟨⟨Status.inUse, some 5, none⟩, none, none, [], some 1⟩
        (statusOnly Status.inRepair) =
      Except.ok ⟨⟨Status.inRepair, none, none⟩, some ⟨RepairStatus.pending, some 5, false⟩,
        none, [], some 1⟩ ∧
    repairSetStatus ⟨⟨Status.inRepair, none, none⟩, some ⟨RepairStatus.pending, some 5, false⟩,
        none, [], some 1⟩ RepairStatus.inProgress =
      ⟨⟨Status.inRepair, none, none⟩, some ⟨RepairStatus.inProgress, some 5, false⟩,
        none, [], some 1⟩ ∧
    updateEquipment ⟨⟨Status.inRepair, none, none⟩, some ⟨RepairStatus.inProgress, some 5, false⟩,
        none, [], some 1⟩ (statusOnly Status.inUse) =
      Except.ok ⟨⟨Status.inUse, some 5, none⟩, some ⟨RepairStatus.completed, some 5, true⟩,
        none, [], some 1⟩ ∧
    updateEquipment ⟨⟨Status.inUse, some 5, none⟩, some ⟨RepairStatus.completed, some 5, true⟩,
        none, [], some 1⟩ (statusOnly Status.inRepair) =
      Except.ok ⟨⟨Status.inRepair, none, none⟩, some ⟨RepairStatus.completed, some 5, true⟩,
        none, [], some 1⟩ ∧
    openRepairCount ⟨⟨Status.inRepair, none, none⟩, some ⟨RepairStatus.completed, some 5, true⟩,
        none, [], some 1⟩ = 0 ∧
    (0 : Nat) ≠ 1 :=
  ⟨rfl, rfl, rfl, rfl, rfl, by decide⟩

/-- Amended C3: a transition `in_use -> in_repair` creates a fresh open
(pending) record capturing the current room only when no record exists
at all; when any record exists — open or already closed — it is left
untouched, so only the first episode is guaranteed exactly one open
record. -/
theorem c3_amended_repair_record_on_entry (db db' : DB)
    (hst : db.equipment.status = Status.inUse)
    (h : updateEquipment db (statusOnly Status.inRepair) = Except.ok db') :
    db'.equipment.status = Status.inRepair ∧
    db'.repair = (match db.repair with
      | none => some ⟨RepairStatus.pending, db.equipment.room, false⟩
      | some r => some r) ∧
    (db.repair = none → openRepairCount db' = 1) := by
  cases hrep : db.repair with
  | none =>
      simp [updateEquipment, validateUpdate, resolveLocationKeys, statusOnly, getKey,
        executeTransition, legalTransition, hst, hrep] at h
      rw [← h]
      simp [openRepairCount, isOpenRepair, hrep]
  | some r =>
      simp [updateEquipment, validateUpdate, resolveLocationKeys, statusOnly, getKey,
        executeTransition, legalTransition, hst, hrep] at h
      rw [← h]
      simp [hrep]

/-- Witness for C3: the first entry into repair from room 7 creates the
single open pending record. -/
theorem c3_amended_repair_record_on_entry_witness :
    (⟨⟨Status.inRepair, none, none⟩, some ⟨RepairStatus.pending, some 7, false⟩, none, [], some 1⟩
        : DB).equipment.status = Status.inRepair ∧
    (⟨⟨Status.inRepair, none, none⟩, some ⟨RepairStatus.pending, some 7, false⟩, none, [], some 1⟩
        : DB).repair = some ⟨RepairStatus.pending, some 7, false⟩ ∧
    ((none : Option RepairRecord) = none →
      openRepairCount ⟨⟨Status.inRepair, none, none⟩, some ⟨RepairStatus.pending, some 7, false⟩,
        none, [], some 1⟩ = 1) :=
  c3_amended_repair_record_on_entry
    ⟨⟨Status.inUse, some 7, none⟩, none, none, [], some 1⟩
    ⟨⟨Status.inRepair, none, none⟩, some ⟨RepairStatus.pending, some 7, false⟩, none, [], some 1⟩
    rfl rfl

/-! ## C4: the repair round trip -/

/-- Counterexample to claim C4 (spec Scenario C): the plain round trip
`in_use(R5) -> in_repair -> in_use` restores room 5, but the repair
record stays `pending` with no `end_date` — it is marked completed
only when it was `in_progress` at the moment of the transition. -/
theorem c4_counterexample_pending_repair_not_completed :
    updateEquipment ⟨⟨Status.inUse, some 5, none⟩, none, none, [], some 1⟩
        (statusOnly Status.inRepair) =
      Except.ok ⟨⟨Status.inRepair, none, none⟩, some ⟨RepairStatus.pending, some 5, false⟩,
        none, [], some 1⟩ ∧
    updateEquipment ⟨⟨Status.inRepair, none, none⟩, some ⟨RepairStatus.pending, some 5, false⟩,
        none, [], some 1⟩ (statusOnly Status.inUse) =
      Except.ok ⟨⟨Status.inUse, some 5, none⟩, some ⟨RepairStatus.pending, some 5, false⟩,
        none, [], some 1⟩ ∧
    RepairStatus.pending ≠ RepairStatus.completed ∧
    (false : Bool) ≠ true :=
  ⟨rfl, rfl, by decide, by decide⟩

/-- Amended C4: the round trip `in_use(R5) -> in_repair -> in_use`
always restores `room = R5` from the `original_room` of the record; the
record is marked completed with `end_date` set exactly when it was
moved to `in_progress` during the repair (flag `b`), and otherwise
stays pending with no `end_date`. -/
theorem c4_amended_roundtrip_restores_room (b : Bool) :
    updateEquipment ⟨⟨Status.inUse, some 5, none⟩, none, none, [], some 1⟩
        (statusOnly Status.inRepair) =
      Except.ok ⟨⟨Status.inRepair, none, none⟩, some ⟨RepairStatus.pending, some 5, false⟩,
        none, [], some 1⟩ ∧
    updateEquipment
        (if b then
          repairSetStatus ⟨⟨Status.inRepair, none, none⟩,
            some ⟨RepairStatus.pending, some 5, false⟩, none, [], some 1⟩ RepairStatus.inProgress
        else ⟨⟨Status.inRepair, none, none⟩, some ⟨RepairStatus.pending, some 5, false⟩,
          none, [], some 1⟩)
        (statusOnly Status.inUse) =
      Except.ok ⟨⟨Status.inUse, some 5, none⟩,
        some ⟨(if b then RepairStatus.completed else RepairStatus.pending), some 5, b⟩,
        none, [], some 1⟩ := by
  cases b <;> exact ⟨rfl, rfl⟩

/-! ## C1: location exclusivity -/

/-- Counterexample to claim C1: disposing a fresh in-stock item while
supplying a warehouse in the same request leaves the disposed item
with a warehouse — `dispose()` clears both fields, but the serializer
then writes the supplied warehouse back onto the instance. -/
theorem c1_counterexample_disposed_keeps_warehouse :
    updateEquipment ⟨⟨Status.inStock, none, some 1⟩, none, none, [], some 1⟩
        { status := some Status.disposed, warehouseKey := some (some 2) } =
      Except.ok ⟨⟨Status.disposed, none, some 2⟩, none, some ⟨DisposalReason.disposal, none⟩,
        [], some 1⟩ ∧
    (some 2 : Option Nat) ≠ (none : Option Nat) :=
  ⟨rfl, by decide⟩

lemma exec_locExclusive (db : DB) (t : Status)
    (hlegal : legalTransition db.equipment.status t = true)
    (hrep : db.equipment.status = Status.inRepair →
      db.equipment.room = none ∧ db.equipment.warehouse = none) :
    locExclusive (executeTransition db db.equipment.status t).equipment := by
  rcases db with ⟨⟨s, rm, wh⟩, rep, disp, mov, main⟩
  dsimp only at hlegal hrep ⊢
  cases s <;> cases t <;> simp only [legalTransition, Bool.false_eq_true] at hlegal
  case inStock.inUse => simp [executeTransition, locExclusive]
  case inStock.disposed =>
      cases disp <;> simp [executeTransition, addDisposalIfMissing, locExclusive]
  case inUse.inStock => simp [executeTransition, locExclusive]
  case inUse.inRepair => cases rep <;> simp [executeTransition, locExclusive]
  case inUse.disposed =>
      cases disp <;> simp [executeTransition, addDisposalIfMissing, locExclusive]
  case inRepair.inUse =>
      obtain ⟨rfl, rfl⟩ := hrep rfl
      rcases rep with _ | ⟨rs, ro, re⟩
      · simp [executeTransition, closeRepairAs, locExclusive]
      · rcases ro with _ | r0 <;> cases rs <;>
          simp [executeTransition, closeRepairAs, locExclusive]
  case inRepair.inStock =>
      obtain ⟨rfl, rfl⟩ := hrep rfl
      rcases rep with _ | ⟨rs, ro, re⟩
      · simp [executeTransition, closeRepairAs, locExclusive]
      · cases rs <;> simp [executeTransition, closeRepairAs, locExclusive]
  case inRepair.disposed =>
      rcases rep with _ | ⟨rs, ro, re⟩
      · cases disp <;>
          simp [executeTransition, closeRepairAs, addDisposalIfMissing, locExclusive]
      · cases rs <;> cases disp <;>
          simp [executeTransition, closeRepairAs, addDisposalIfMissing, locExclusive]

lemma validate_none_legal (db : DB) (req : UpdateRequest) (t : Status)
    (hs : req.status = some t) (hne : t ≠ db.equipment.status)
    (hv : validateUpdate db req = none) :
    legalTransition db.equipment.status t = true := by
  rcases req with ⟨rs, rk, wk, stw⟩
  cases hs
  simp only [validateUpdate] at hv
  by_cases h1 : ((getKey rk).isSome && (getKey wk).isSome) = true
  · rw [if_pos h1] at hv
    exact absurd hv (by simp)
  · rw [if_neg h1] at hv
    by_cases h2 : (stw && (getKey rk).isSome) = true
    · rw [if_pos h2] at hv
      exact absurd hv (by simp)
    · rw [if_neg h2] at hv
      cases hl : legalTransition db.equipment.status t
      · exfalso
        have hbt : (t != db.equipment.status) = true := by simpa [bne_iff_ne] using hne
        rw [if_pos (by rw [hbt, hl]; rfl)] at hv
        exact absurd hv (by simp)
      · rfl

lemma update_noChange (db : DB) (req : UpdateRequest) (db' : DB)
    (hc : req.status.getD db.equipment.status = db.equipment.status)
    (h : updateEquipment db req = Except.ok db') :
    ∃ rk1 wk1, resolveLocationKeys db req = Except.ok (rk1, wk1) ∧
      db' = (⟨⟨db.equipment.status, rk1.getD db.equipment.room, wk1.getD db.equipment.warehouse⟩,
        db.repair, db.disposal, db.movements, db.mainWarehouse⟩ : DB) := by
  unfold updateEquipment at h
  cases hv : validateUpdate db req <;> rw [hv] at h
  · cases hk : resolveLocationKeys db req <;> rw [hk] at h
    · exact absurd h (by simp)
    · rename_i p
      rcases p with ⟨rk1, wk1⟩
      refine ⟨rk1, wk1, rfl, ?_⟩
      simp only [Except.ok.injEq] at h
      rw [← h]
      simp [hc]
  · exact absurd h (by simp)

/-- Amended C1: after a completed update the room and warehouse of the item
are never both set, and a disposed item has both unset — provided the
pre-state is location-consistent and the request does not combine a
location field (room, warehouse or send_to_warehouse) with a status
change, nor supply one on an already-disposed item.  (Dropping either
proviso is refuted by the counterexample: the serializer writes
supplied location fields back after the transition clears them.) -/
theorem c1_amended_location_exclusivity (db : DB) (req : UpdateRequest) (db' : DB)
    (hL : locInvariant db)
    (hchg : ∀ t, req.status = some t → t ≠ db.equipment.status → noLocationFields req)
    (hdisp : db.equipment.status = Status.disposed → noLocationFields req)
    (h : updateEquipment db req = Except.ok db') :
    locExclusive db'.equipment := by
  obtain ⟨hEx, hRep⟩ := hL
  by_cases hc : req.status.getD db.equipment.status = db.equipment.status
  · -- the request does not change the status
    obtain ⟨rk1, wk1, hk, rfl⟩ := update_noChange db req db' hc h
    rcases req with ⟨rs, rk, wk, stw⟩
    simp only [noLocationFields] at hdisp
    cases stw
    · simp only [resolveLocationKeys, Bool.false_eq_true, if_false] at hk
      rcases rk with _ | rv
      · rcases wk with _ | wv
        · simp only [getKey, Option.getD, Option.isSome_none, Bool.false_eq_true, if_false,
            Except.ok.injEq, Prod.mk.injEq] at hk
          obtain ⟨rfl, rfl⟩ := hk
          exact hEx
        · rcases wv with _ | wval
          · simp only [getKey, Option.getD, Option.isSome_none, Bool.false_eq_true, if_false,
              Except.ok.injEq, Prod.mk.injEq] at hk
            obtain ⟨rfl, rfl⟩ := hk
            constructor
            · simp
            · intro hdd
              exact absurd (hdisp hdd).2.1 (by simp)
          · simp only [getKey, Option.getD, Option.isSome_none, Option.isSome_some,
              Bool.false_eq_true, if_false, if_true, Except.ok.injEq, Prod.mk.injEq] at hk
            obtain ⟨rfl, rfl⟩ := hk
            constructor
            · simp
            · intro hdd
              exact absurd (hdisp hdd).2.1 (by simp)
      · rcases rv with _ | rval
        · rcases wk with _ | wv
          · simp only [getKey, Option.getD, Option.isSome_none, Bool.false_eq_true, if_false,
              Except.ok.injEq, Prod.mk.injEq] at hk
            obtain ⟨rfl, rfl⟩ := hk
            constructor
            · simp
            · intro hdd
              exact absurd (hdisp hdd).1 (by simp)
          · rcases wv with _ | wval
            · simp only [getKey, Option.getD, Option.isSome_none, Bool.false_eq_true, if_false,
                Except.ok.injEq, Prod.mk.injEq] at hk
              obtain ⟨rfl, rfl⟩ := hk
              constructor
              · simp
              · intro hdd
                exact absurd (hdisp hdd).1 (by simp)
            · simp only [getKey, Option.getD, Option.isSome_none, Option.isSome_some,
                Bool.false_eq_true, if_false, if_true, Except.ok.injEq, Prod.mk.injEq] at hk
              obtain ⟨rfl, rfl⟩ := hk
              constructor
              · simp
              · intro hdd
                exact absurd (hdisp hdd).1 (by simp)
        · simp only [getKey, Option.getD, Option.isSome_some, if_true,
            Except.ok.injEq, Prod.mk.injEq] at hk
          obtain ⟨rfl, rfl⟩ := hk
          constructor
          · simp
          · intro hdd
            exact absurd (hdisp hdd).1 (by simp)
    · simp only [resolveLocationKeys, if_true] at hk
      rcases hm : db.mainWarehouse with _ | m <;> rw [hm] at hk
      · exact absurd hk (by simp)
      · simp only [Except.ok.injEq, Prod.mk.injEq] at hk
        obtain ⟨rfl, rfl⟩ := hk
        constructor
        · simp
        · intro hdd
          exact absurd (hdisp hdd).2.2 (by simp)
  · -- the request changes the status
    rcases hs : req.status with _ | t
    · rw [hs] at hc
      simp at hc
    · rw [hs] at hc
      simp only [Option.getD] at hc
      obtain ⟨hrk, hwk, hsw⟩ := hchg t hs hc
      unfold updateEquipment at h
      cases hv : validateUpdate db req <;> rw [hv] at h
      · have hlegal := validate_none_legal db req t hs hc hv
        have hkeys : resolveLocationKeys db req = Except.ok (none, none) := by
          simp [resolveLocationKeys, hrk, hwk, hsw, getKey]
        rw [hkeys] at h
        simp only [Except.ok.injEq, hs, Option.getD] at h
        rw [if_pos hc] at h
        rw [← h]
        simp only [Option.getD]
        exact exec_locExclusive db t hlegal hRep
      · exact absurd h (by simp)

/-- Witness for C1: the status-only transition `in_stock -> in_use`
from a fresh stocked item leaves a location-exclusive state. -/
theorem c1_amended_location_exclusivity_witness :
    locExclusive (⟨Status.inUse, none, none⟩ : Equipment) :=
  c1_amended_location_exclusivity
    ⟨⟨Status.inStock, none, some 1⟩, none, none, [], some 1⟩
    (statusOnly Status.inUse)
    ⟨⟨Status.inUse, none, none⟩, none, none, [], some 1⟩
    ⟨⟨by simp, by simp⟩, by simp⟩
    (fun t ht _ => by cases ht; exact ⟨rfl, rfl, rfl⟩)
    (fun hdd => Status.noConfusion hdd)
    rfl

end IMaster
